import Mathlib

/-!
Verification development for a Rust client library of the Coinbase Advanced
Trade API (v3).  The development gives a shallow embedding of the parts of
the library that carry its logic: the dual-shape response decoder of the
request executor, the three cursor-based pagination streams, the OAuth
client construction, scope handling and CSRF check, and the query-argument
builder used to assemble request URLs.  External crates (serde_json, url,
oauth2, reqwest, chrono) are modelled at their interface: parsing and HTTP
calls become explicit function arguments or canned response lists, and a
Rust panic becomes the `panicked` case of a dedicated result type.
-/

namespace Coinbase

/-- Details field of a Coinbase API error response (src/error.rs,
`CbRequestErrorDetails`): a type url string and a byte value. -/
structure CbRequestErrorDetails where
  type_url : String
  value : Nat
deriving DecidableEq, Repr

/-- Body of a Coinbase API error response (src/error.rs, `CbRequestError`). -/
structure CbRequestError where
  error : String
  code : Int
  message : String
  details : CbRequestErrorDetails
deriving DecidableEq, Repr

/-- Error enum of the client (src/error.rs, `CbError`).  Transport errors of
the reqwest crate and serde_json decode errors are modelled by their
message strings. -/
inductive CbError where
  | http (msg : String)
  | serde (msg : String)
  | coinbase (e : CbRequestError)
deriving DecidableEq, Repr

/-- Dual-shape response decoder (src/client.rs, `unpack_response`).  Parsing
by the external serde_json crate is modelled by the two parse functions
given as arguments: `parseT` for the expected success shape `T` and
`parseErr` for the `CbRequestError` shape.  The Boolean component of the
result records whether the error-shape parse was attempted, which in the
source happens exactly in the branch where the success-shape parse failed. -/
def unpack_response {T : Type} (parseT : String → Except String T)
    (parseErr : String → Except String CbRequestError)
    (text_content : String) : Except CbError T × Bool :=
  match parseT text_content with
  | Except.ok result => (Except.ok result, false)
  | Except.error err =>
    match parseErr text_content with
    | Except.ok cb_err => (Except.error (CbError.coinbase cb_err), true)
    | Except.error _ => (Except.error (CbError.serde err), true)

/-- Claim C1: for every response body that parses successfully as the
expected success type `T`, `unpack_response` returns that success value and
never attempts the error-schema parse (the attempt flag is `false`); the
success-shape parse wins for every body, including bodies that would also
satisfy the error schema, since `parseErr` is universally quantified here. -/
theorem unpack_response_success_first {T : Type}
    (parseT : String → Except String T)
    (parseErr : String → Except String CbRequestError)
    (body : String) (t : T) (h : parseT body = Except.ok t) :
    unpack_response parseT parseErr body = (Except.ok t, false) := by
  simp [unpack_response, h]

/-- Demonstration success parser used by witnesses: accepts exactly the
body "7". -/
def demoSuccessParse : String → Except String Nat :=
  fun s => if s = "7" then Except.ok 7 else Except.error "invalid type: expected Nat"

/-- Demonstration error-shape parser used by witnesses: accepts every body,
so any body it is given would also satisfy the error schema. -/
def demoPermissiveErrParse : String → Except String CbRequestError :=
  fun _ => Except.ok ⟨"INTERNAL", 13, "internal error", ⟨"type.googleapis.com", 0⟩⟩

/-- Witness for C1 at the concrete body "7", against an error parser that
accepts every body: the success parse still wins and the error parse is
never attempted. -/
theorem unpack_response_success_first_witness :
    demoSuccessParse "7" = Except.ok 7 ∧
    unpack_response demoSuccessParse demoPermissiveErrParse "7"
      = (Except.ok 7, false) :=
  ⟨rfl, unpack_response_success_first demoSuccessParse
    demoPermissiveErrParse "7" 7 rfl⟩

/-- Claim C2: for every body that does not parse as the success type: if it
parses as the service-error schema the decoder returns `CbError.coinbase`
carrying the upstream error, and if it parses as neither schema the decoder
returns `CbError.serde` carrying the original success-shape parse failure
`err`, not the error-shape parse failure. -/
theorem unpack_response_failure_shapes {T : Type}
    (parseT : String → Except String T)
    (parseErr : String → Except String CbRequestError)
    (body : String) (err : String) (h : parseT body = Except.error err) :
    (∀ cb_err, parseErr body = Except.ok cb_err →
      unpack_response parseT parseErr body
        = (Except.error (CbError.coinbase cb_err), true)) ∧
    (∀ err2, parseErr body = Except.error err2 →
      unpack_response parseT parseErr body
        = (Except.error (CbError.serde err), true)) := by
  constructor
  · intro cb_err hcb
    simp [unpack_response, h, hcb]
  · intro err2 herr
    simp [unpack_response, h, herr]

/-- Demonstration error-shape parser used by witnesses: rejects every body
with its own distinct message. -/
def demoRejectingErrParse : String → Except String CbRequestError :=
  fun _ => Except.error "missing field error"

/-- Witness for C2 at the concrete body "oops": with a permissive error
parser the upstream error is returned; with a rejecting error parser the
original success-shape failure message is preserved. -/
theorem unpack_response_failure_shapes_witness :
    demoSuccessParse "oops" = Except.error "invalid type: expected Nat" ∧
    unpack_response demoSuccessParse demoPermissiveErrParse "oops"
      = (Except.error (CbError.coinbase
          ⟨"INTERNAL", 13, "internal error", ⟨"type.googleapis.com", 0⟩⟩), true) ∧
    unpack_response demoSuccessParse demoRejectingErrParse "oops"
      = (Except.error (CbError.serde "invalid type: expected Nat"), true) :=
  ⟨rfl,
    (unpack_response_failure_shapes demoSuccessParse demoPermissiveErrParse
      "oops" "invalid type: expected Nat" rfl).1
      ⟨"INTERNAL", 13, "internal error", ⟨"type.googleapis.com", 0⟩⟩ rfl,
    (unpack_response_failure_shapes demoSuccessParse demoRejectingErrParse
      "oops" "invalid type: expected Nat" rfl).2
      "missing field error" rfl⟩

/-- Envelope of a list_accounts response (src/accounts.rs,
`AccountsResponse`).  The account item type is a parameter: the pagination
logic never inspects the account fields. -/
structure AccountsResponse (α : Type) where
  accounts : List α
  has_next : Bool
  cursor : String
  size : Int
deriving DecidableEq, Repr

/-- Envelope of a list_orders response (src/orders.rs, `OrdersResponse`). -/
structure OrdersResponse (α : Type) where
  orders : List α
  sequence : String
  has_next : Bool
  cursor : String
deriving DecidableEq, Repr

/-- Envelope of a list_fills response (src/orders.rs, `FillsResponse`): no
`has_next` field, termination is signalled by an empty cursor. -/
structure FillsResponse (α : Type) where
  fills : List α
  cursor : String
deriving DecidableEq, Repr

/-- Transport error produced when the canned request executor has no
response left: models a connection failure of the underlying HTTP client. -/
def connectionFailed : CbError := CbError.http "error sending request"


/-- While-loop body of the list_accounts stream (src/client.rs lines
122-127): continue while the previous response has `has_next` set, issuing
one request per iteration with the cursor of the previous response and
yielding the accounts of each response.  A failed request yields its error
and ends the stream, as the question-mark operator does inside the
try_stream block.  Each produced element is paired with the cursor argument
of the request that produced it. -/
def list_accounts_loop {α : Type} (prev : AccountsResponse α)
    (server : List (Except CbError (AccountsResponse α))) :
    List (Option String × Except CbError (List α)) :=
  if prev.has_next then
    match server with
    | [] => [(some prev.cursor, Except.error connectionFailed)]
    | Except.error e :: _ => [(some prev.cursor, Except.error e)]
    | Except.ok r :: rest =>
      (some prev.cursor, Except.ok r.accounts) :: list_accounts_loop r rest
  else []

/-- The list_accounts pagination stream (src/client.rs lines 112-129),
run against a canned list of responses.  The first request uses the
caller-supplied cursor; the limit parameter only affects the request URL
and is omitted since requests are identified by their cursor here. -/
def list_accounts {α : Type} (cursor : Option String)
    (server : List (Except CbError (AccountsResponse α))) :
    List (Option String × Except CbError (List α)) :=
  match server with
  | [] => [(cursor, Except.error connectionFailed)]
  | Except.error e :: _ => [(cursor, Except.error e)]
  | Except.ok r :: rest =>
    (cursor, Except.ok r.accounts) :: list_accounts_loop r rest

/-- While-loop body of the list_orders stream (src/client.rs lines
292-300), same Variant A continuation as list_accounts. -/
def list_orders_loop {α : Type} (prev : OrdersResponse α)
    (server : List (Except CbError (OrdersResponse α))) :
    List (Option String × Except CbError (List α)) :=
  if prev.has_next then
    match server with
    | [] => [(some prev.cursor, Except.error connectionFailed)]
    | Except.error e :: _ => [(some prev.cursor, Except.error e)]
    | Except.ok r :: rest =>
      (some prev.cursor, Except.ok r.orders) :: list_orders_loop r rest
  else []

/-- The list_orders pagination stream (src/client.rs lines 268-302) run
against a canned list of responses; only the cursor parameter is tracked,
the other eleven query parameters are constant across the iterations. -/
def list_orders {α : Type} (cursor : Option String)
    (server : List (Except CbError (OrdersResponse α))) :
    List (Option String × Except CbError (List α)) :=
  match server with
  | [] => [(cursor, Except.error connectionFailed)]
  | Except.error e :: _ => [(cursor, Except.error e)]
  | Except.ok r :: rest =>
    (cursor, Except.ok r.orders) :: list_orders_loop r rest

/-- While-loop body of the list_fills stream (src/client.rs lines 362-367):
Variant B continuation, continue while the cursor of the previous response
is not the empty string. -/
def list_fills_loop {α : Type} (prev : FillsResponse α)
    (server : List (Except CbError (FillsResponse α))) :
    List (Option String × Except CbError (List α)) :=
  if prev.cursor ≠ "" then
    match server with
    | [] => [(some prev.cursor, Except.error connectionFailed)]
    | Except.error e :: _ => [(some prev.cursor, Except.error e)]
    | Except.ok r :: rest =>
      (some prev.cursor, Except.ok r.fills) :: list_fills_loop r rest
  else []

/-- The list_fills pagination stream (src/client.rs lines 347-369) run
against a canned list of responses. -/
def list_fills {α : Type} (cursor : Option String)
    (server : List (Except CbError (FillsResponse α))) :
    List (Option String × Except CbError (List α)) :=
  match server with
  | [] => [(cursor, Except.error connectionFailed)]
  | Except.error e :: _ => [(cursor, Except.error e)]
  | Except.ok r :: rest =>
    (cursor, Except.ok r.fills) :: list_fills_loop r rest

/-- Variant A canned-response shape: `has_next` true on every response but
the last, false on the last. -/
def hasNextChainA {α : Type} : List (AccountsResponse α) → Bool
  | [] => true
  | [r] => r.has_next == false
  | r :: r2 :: rest => r.has_next && hasNextChainA (r2 :: rest)

/-- Variant A canned-response shape for orders responses. -/
def hasNextChainO {α : Type} : List (OrdersResponse α) → Bool
  | [] => true
  | [r] => r.has_next == false
  | r :: r2 :: rest => r.has_next && hasNextChainO (r2 :: rest)

/-- Variant B canned-response shape: cursor non-empty on every response but
the last, empty on the last. -/
def cursorChainB {α : Type} : List (FillsResponse α) → Bool
  | [] => true
  | [r] => r.cursor == ""
  | r :: r2 :: rest => (r.cursor != "") && cursorChainB (r2 :: rest)

/-- Expected tail of the accounts stream after the first batch: one batch
per remaining response, each requested with the cursor of the response
immediately before it. -/
def accountsTail {α : Type} : AccountsResponse α → List (AccountsResponse α) →
    List (Option String × Except CbError (List α))
  | _, [] => []
  | prev, r :: rest =>
    (some prev.cursor, Except.ok r.accounts) :: accountsTail r rest

/-- Expected tail of the fills stream after the first batch. -/
def fillsTail {α : Type} : FillsResponse α → List (FillsResponse α) →
    List (Option String × Except CbError (List α))
  | _, [] => []
  | prev, r :: rest =>
    (some prev.cursor, Except.ok r.fills) :: fillsTail r rest

theorem accountsTail_snd {α : Type} (rs : List (AccountsResponse α)) :
    ∀ r, (accountsTail r rs).map Prod.snd
      = rs.map (fun x => Except.ok x.accounts) := by
  induction rs with
  | nil => intro r; rfl
  | cons r2 rest ih => intro r; simp [accountsTail, ih r2]

theorem fillsTail_snd {α : Type} (rs : List (FillsResponse α)) :
    ∀ r, (fillsTail r rs).map Prod.snd
      = rs.map (fun x => Except.ok x.fills) := by
  induction rs with
  | nil => intro r; rfl
  | cons r2 rest ih => intro r; simp [fillsTail, ih r2]

theorem list_accounts_loop_ok {α : Type} (rs : List (AccountsResponse α))
    (extra : List (Except CbError (AccountsResponse α))) :
    ∀ r : AccountsResponse α, hasNextChainA (r :: rs) = true →
      list_accounts_loop r (rs.map Except.ok ++ extra) = accountsTail r rs := by
  induction rs with
  | nil =>
    intro r h
    simp [hasNextChainA] at h
    simp [list_accounts_loop.eq_def, h, accountsTail]
  | cons r2 rest ih =>
    intro r h
    simp [hasNextChainA] at h
    simp [list_accounts_loop, h.1, accountsTail, ih r2 h.2]

theorem list_fills_loop_ok {α : Type} (rs : List (FillsResponse α))
    (extra : List (Except CbError (FillsResponse α))) :
    ∀ r : FillsResponse α, cursorChainB (r :: rs) = true →
      list_fills_loop r (rs.map Except.ok ++ extra) = fillsTail r rs := by
  induction rs with
  | nil =>
    intro r h
    simp [cursorChainB] at h
    simp [list_fills_loop.eq_def, h, fillsTail]
  | cons r2 rest ih =>
    intro r h
    simp [cursorChainB] at h
    simp [list_fills_loop, h.1, fillsTail, ih r2 h.2]

/-- Claim C3: for every finite sequence of Variant A canned responses with
`has_next` true on the first n-1 responses and false on the n-th, the
list_accounts stream yields exactly n batches in response order, each equal
to the accounts of the corresponding response, and terminates without a
further request (the `extra` responses are never consumed) and without an
error: the full run equals the expected batch list, and projecting the
yielded elements gives exactly the successful account batches. -/
theorem list_accounts_pagination {α : Type} (cursor : Option String)
    (r : AccountsResponse α) (rs : List (AccountsResponse α))
    (extra : List (Except CbError (AccountsResponse α)))
    (h : hasNextChainA (r :: rs) = true) :
    list_accounts cursor ((r :: rs).map Except.ok ++ extra)
      = (cursor, Except.ok r.accounts) :: accountsTail r rs ∧
    (list_accounts cursor ((r :: rs).map Except.ok ++ extra)).map Prod.snd
      = (r :: rs).map (fun x => Except.ok x.accounts) := by
  have hloop := list_accounts_loop_ok rs extra r h
  refine ⟨by simp [list_accounts, hloop], ?_⟩
  simp [list_accounts, hloop, accountsTail_snd]

/-- Witness for C3: three canned account pages with `has_next` true, true,
false yield exactly those three batches and leave the extra canned
response untouched. -/
theorem list_accounts_pagination_witness :
    hasNextChainA [⟨["a1", "a2"], true, "c1", 2⟩, ⟨["a3"], true, "c2", 1⟩,
        (⟨["a4"], false, "", 1⟩ : AccountsResponse String)] = true ∧
    list_accounts none
        ([⟨["a1", "a2"], true, "c1", 2⟩, ⟨["a3"], true, "c2", 1⟩,
          (⟨["a4"], false, "", 1⟩ : AccountsResponse String)].map Except.ok
         ++ [Except.ok ⟨["never"], false, "", 1⟩])
      = (none, Except.ok ["a1", "a2"]) :: accountsTail ⟨["a1", "a2"], true, "c1", 2⟩
          [⟨["a3"], true, "c2", 1⟩, ⟨["a4"], false, "", 1⟩] ∧
    (list_accounts none
        ([⟨["a1", "a2"], true, "c1", 2⟩, ⟨["a3"], true, "c2", 1⟩,
          (⟨["a4"], false, "", 1⟩ : AccountsResponse String)].map Except.ok
         ++ [Except.ok ⟨["never"], false, "", 1⟩])).map Prod.snd
      = [Except.ok ["a1", "a2"], Except.ok ["a3"], Except.ok ["a4"]] :=
  ⟨rfl,
    (list_accounts_pagination none ⟨["a1", "a2"], true, "c1", 2⟩
      [⟨["a3"], true, "c2", 1⟩, ⟨["a4"], false, "", 1⟩]
      [Except.ok ⟨["never"], false, "", 1⟩] rfl).1,
    (list_accounts_pagination none ⟨["a1", "a2"], true, "c1", 2⟩
      [⟨["a3"], true, "c2", 1⟩, ⟨["a4"], false, "", 1⟩]
      [Except.ok ⟨["never"], false, "", 1⟩] rfl).2⟩

/-- Claim C4: for every finite sequence of Variant B canned responses whose
cursors are non-empty on the first n-1 responses and empty on the n-th, the
list_fills stream yields exactly n batches in order and terminates when the
returned cursor is empty; the first request carries the caller cursor and,
by the definition of `fillsTail`, every subsequent request carries exactly
the cursor of the immediately preceding response. -/
theorem list_fills_pagination {α : Type} (cursor : Option String)
    (r : FillsResponse α) (rs : List (FillsResponse α))
    (extra : List (Except CbError (FillsResponse α)))
    (h : cursorChainB (r :: rs) = true) :
    list_fills cursor ((r :: rs).map Except.ok ++ extra)
      = (cursor, Except.ok r.fills) :: fillsTail r rs ∧
    (list_fills cursor ((r :: rs).map Except.ok ++ extra)).map Prod.snd
      = (r :: rs).map (fun x => Except.ok x.fills) := by
  have hloop := list_fills_loop_ok rs extra r h
  refine ⟨by simp [list_fills, hloop], ?_⟩
  simp [list_fills, hloop, fillsTail_snd]

/-- Witness for C4: canned fills pages with cursors "c1", "c2", "" yield
exactly three batches, the second and third requests carrying cursors "c1"
and "c2" respectively. -/
theorem list_fills_pagination_witness :
    cursorChainB [⟨["f1"], "c1"⟩, ⟨["f2"], "c2"⟩,
        (⟨["f3"], ""⟩ : FillsResponse String)] = true ∧
    list_fills none
        ([⟨["f1"], "c1"⟩, ⟨["f2"], "c2"⟩,
          (⟨["f3"], ""⟩ : FillsResponse String)].map Except.ok)
      = [(none, Except.ok ["f1"]), (some "c1", Except.ok ["f2"]),
         (some "c2", Except.ok ["f3"])] := by
  refine ⟨rfl, ?_⟩
  have h := (list_fills_pagination none ⟨["f1"], "c1"⟩
    [⟨["f2"], "c2"⟩, ⟨["f3"], ""⟩] [] rfl).1
  simpa [fillsTail] using h

theorem list_accounts_loop_error {α : Type} (ps : List (AccountsResponse α))
    (e : CbError) (rest : List (Except CbError (AccountsResponse α))) :
    ∀ r : AccountsResponse α, r.has_next = true →
      (∀ x ∈ ps, x.has_next = true) →
      (list_accounts_loop r (ps.map Except.ok ++ Except.error e :: rest)).map
          Prod.snd
        = ps.map (fun x => Except.ok x.accounts) ++ [Except.error e] := by
  induction ps with
  | nil =>
    intro r hr _
    simp [list_accounts_loop, hr]
  | cons p ps ih =>
    intro r hr hall
    have hp : p.has_next = true := hall p (by simp)
    have hrest : ∀ x ∈ ps, x.has_next = true := fun x hx => hall x (by simp [hx])
    simp [list_accounts_loop, hr, ih p hp hrest]

theorem list_orders_loop_error {α : Type} (ps : List (OrdersResponse α))
    (e : CbError) (rest : List (Except CbError (OrdersResponse α))) :
    ∀ r : OrdersResponse α, r.has_next = true →
      (∀ x ∈ ps, x.has_next = true) →
      (list_orders_loop r (ps.map Except.ok ++ Except.error e :: rest)).map
          Prod.snd
        = ps.map (fun x => Except.ok x.orders) ++ [Except.error e] := by
  induction ps with
  | nil =>
    intro r hr _
    simp [list_orders_loop, hr]
  | cons p ps ih =>
    intro r hr hall
    have hp : p.has_next = true := hall p (by simp)
    have hrest : ∀ x ∈ ps, x.has_next = true := fun x hx => hall x (by simp [hx])
    simp [list_orders_loop, hr, ih p hp hrest]

theorem list_fills_loop_error {α : Type} (ps : List (FillsResponse α))
    (e : CbError) (rest : List (Except CbError (FillsResponse α))) :
    ∀ r : FillsResponse α, r.cursor ≠ "" →
      (∀ x ∈ ps, x.cursor ≠ "") →
      (list_fills_loop r (ps.map Except.ok ++ Except.error e :: rest)).map
          Prod.snd
        = ps.map (fun x => Except.ok x.fills) ++ [Except.error e] := by
  induction ps with
  | nil =>
    intro r hr _
    simp [list_fills_loop, hr]
  | cons p ps ih =>
    intro r hr hall
    have hp : p.cursor ≠ "" := hall p (by simp)
    have hrest : ∀ x ∈ ps, x.cursor ≠ "" := fun x hx => hall x (by simp [hx])
    simp [list_fills_loop, hr, ih p hp hrest]

theorem list_accounts_error_run {α : Type} (cursor : Option String)
    (ps : List (AccountsResponse α)) (e : CbError)
    (rest : List (Except CbError (AccountsResponse α)))
    (h : ∀ x ∈ ps, x.has_next = true) :
    (list_accounts cursor (ps.map Except.ok ++ Except.error e :: rest)).map
        Prod.snd
      = ps.map (fun x => Except.ok x.accounts) ++ [Except.error e] := by
  cases ps with
  | nil => simp [list_accounts]
  | cons p ps =>
    have hp : p.has_next = true := h p (by simp)
    have hrest : ∀ x ∈ ps, x.has_next = true := fun x hx => h x (by simp [hx])
    simp [list_accounts, list_accounts_loop_error ps e rest p hp hrest]

theorem list_orders_error_run {α : Type} (cursor : Option String)
    (ps : List (OrdersResponse α)) (e : CbError)
    (rest : List (Except CbError (OrdersResponse α)))
    (h : ∀ x ∈ ps, x.has_next = true) :
    (list_orders cursor (ps.map Except.ok ++ Except.error e :: rest)).map
        Prod.snd
      = ps.map (fun x => Except.ok x.orders) ++ [Except.error e] := by
  cases ps with
  | nil => simp [list_orders]
  | cons p ps =>
    have hp : p.has_next = true := h p (by simp)
    have hrest : ∀ x ∈ ps, x.has_next = true := fun x hx => h x (by simp [hx])
    simp [list_orders, list_orders_loop_error ps e rest p hp hrest]

theorem list_fills_error_run {α : Type} (cursor : Option String)
    (ps : List (FillsResponse α)) (e : CbError)
    (rest : List (Except CbError (FillsResponse α)))
    (h : ∀ x ∈ ps, x.cursor ≠ "") :
    (list_fills cursor (ps.map Except.ok ++ Except.error e :: rest)).map
        Prod.snd
      = ps.map (fun x => Except.ok x.fills) ++ [Except.error e] := by
  cases ps with
  | nil => simp [list_fills]
  | cons p ps =>
    have hp : p.cursor ≠ "" := h p (by simp)
    have hrest : ∀ x ∈ ps, x.cursor ≠ "" := fun x hx => h x (by simp [hx])
    simp [list_fills, list_fills_loop_error ps e rest p hp hrest]

/-- Claim C5: in each of the three pagination streams, when the request of
step k fails (the canned server holds k-1 successful responses whose
continuation signal says continue, then an error), the stream yields the
k-1 batches of the successful steps unchanged and in order, then yields the
error as an element, and terminates: the output has exactly k elements, so
no request beyond the failing one is issued and no yielded batch is
retracted. -/
theorem pagination_error_propagation {α : Type}
    (cA cO cF : Option String) (e : CbError)
    (psA : List (AccountsResponse α))
    (restA : List (Except CbError (AccountsResponse α)))
    (psO : List (OrdersResponse α))
    (restO : List (Except CbError (OrdersResponse α)))
    (psF : List (FillsResponse α))
    (restF : List (Except CbError (FillsResponse α)))
    (hA : ∀ x ∈ psA, x.has_next = true)
    (hO : ∀ x ∈ psO, x.has_next = true)
    (hF : ∀ x ∈ psF, x.cursor ≠ "") :
    (list_accounts cA (psA.map Except.ok ++ Except.error e :: restA)).map
        Prod.snd
      = psA.map (fun x => Except.ok x.accounts) ++ [Except.error e] ∧
    (list_orders cO (psO.map Except.ok ++ Except.error e :: restO)).map
        Prod.snd
      = psO.map (fun x => Except.ok x.orders) ++ [Except.error e] ∧
    (list_fills cF (psF.map Except.ok ++ Except.error e :: restF)).map
        Prod.snd
      = psF.map (fun x => Except.ok x.fills) ++ [Except.error e] :=
  ⟨list_accounts_error_run cA psA e restA hA,
    list_orders_error_run cO psO e restO hO,
    list_fills_error_run cF psF e restF hF⟩

/-- Witness for C5: each stream is run against one successful page followed
by an upstream service error; the successful batch is kept and the error is
the final yielded element, with canned responses after the error untouched. -/
theorem pagination_error_propagation_witness :
    ((⟨["a1"], true, "c1", 1⟩ : AccountsResponse String).has_next = true) ∧
    (list_accounts (α := String) none
        ([Except.ok ⟨["a1"], true, "c1", 1⟩, Except.error (CbError.http "boom"),
          Except.ok ⟨["never"], false, "", 1⟩])).map Prod.snd
      = [Except.ok ["a1"], Except.error (CbError.http "boom")] ∧
    (list_orders (α := String) none
        ([Except.ok ⟨["o1"], "s", true, "c1"⟩,
          Except.error (CbError.http "boom")])).map Prod.snd
      = [Except.ok ["o1"], Except.error (CbError.http "boom")] ∧
    (list_fills (α := String) none
        ([Except.ok ⟨["f1"], "c1"⟩, Except.error (CbError.http "boom")])).map
        Prod.snd
      = [Except.ok ["f1"], Except.error (CbError.http "boom")] := by
  have h := pagination_error_propagation (α := String) none none none
    (CbError.http "boom")
    [⟨["a1"], true, "c1", 1⟩] [Except.ok ⟨["never"], false, "", 1⟩]
    [⟨["o1"], "s", true, "c1"⟩] []
    [⟨["f1"], "c1"⟩] []
    (by intro x hx; simp at hx; simp [hx])
    (by intro x hx; simp at hx; simp [hx])
    (by intro x hx; simp at hx; simp [hx])
  exact ⟨rfl, h.1, h.2.1, h.2.2⟩

/-- Result of a Rust computation that may panic.  A panic aborts the caller
and carries only the panic message: it is not a returned error value. -/
inductive PanicOr (α : Type) where
  | panicked (msg : String)
  | value (a : α)
deriving DecidableEq, Repr

/-- Whitelist of valid scopes (src/scopes.rs, `VALID_SCOPES`). -/
def VALID_SCOPES : List String := [
  "wallet:accounts:read",
  "wallet:accounts:update",
  "wallet:accounts:create",
  "wallet:accounts:delete",
  "wallet:addresses:read",
  "wallet:addresses:create",
  "wallet:buys:read",
  "wallet:buys:create",
  "wallet:deposits:read",
  "wallet:deposits:create",
  "wallet:notifications:read",
  "wallet:payment-methods:read",
  "wallet:payment-methods:delete",
  "wallet:payment-methods:limits",
  "wallet:sells:read",
  "wallet:sells:create",
  "wallet:transactions:read",
  "wallet:transactions:send",
  "wallet:transactions:request",
  "wallet:transactions:transfer",
  "wallet:user:read",
  "wallet:user:update",
  "wallet:user:email",
  "wallet:withdrawals:read",
  "wallet:withdrawals:create"]

/-- Parsed url, restricted to the components the client reads: scheme,
host, port and path. -/
structure Url where
  scheme : String
  host : Option String
  port : Option Nat
  path : String
deriving DecidableEq, Repr

/-- Split a character list at the first occurrence of the three characters
of the scheme separator, returning the parts before and after it. -/
def splitScheme : List Char → Option (List Char × List Char)
  | [] => none
  | ':' :: '/' :: '/' :: rest => some ([], rest)
  | c :: rest =>
    match splitScheme rest with
    | some (s, r) => some (c :: s, r)
    | none => none

/-- Split a character list at every colon. -/
def splitColons : List Char → List (List Char)
  | [] => [[]]
  | ':' :: rest => [] :: splitColons rest
  | c :: rest =>
    match splitColons rest with
    | [] => [[c]]
    | p :: ps => (c :: p) :: ps

/-- Read a nonempty all-digit character list as a decimal number. -/
def digitsToNat? (cs : List Char) : Option Nat :=
  if cs = [] then none
  else if cs.all Char.isDigit then
    some (cs.foldl (fun n c => 10 * n + (c.toNat - 48)) 0)
  else none

/-- Model of Url::parse of the url crate (external dependency), restricted
to URLs of the shape scheme://host[:port][/path]; other inputs are
rejected.  RedirectUrl::new of the oauth2 crate accepts exactly the strings
Url::parse accepts.  The parse does not require a port: a host:port
authority and a bare host are both well formed. -/
def parseUrl (s : String) : Option Url :=
  match splitScheme s.toList with
  | none => none
  | some (schemeCs, restCs) =>
    if schemeCs = [] ∨ restCs = [] ∨ !(schemeCs.all Char.isAlpha) then none
    else
      let authorityCs := restCs.takeWhile (fun c => c ≠ '/')
      let pathCs := restCs.drop authorityCs.length
      if authorityCs = [] then none
      else
        match splitColons authorityCs with
        | [h] =>
          some ⟨String.mk schemeCs, some (String.mk h), none, String.mk pathCs⟩
        | [h, p] =>
          if h = [] then none
          else
            match digitsToNat? p with
            | some n =>
              some ⟨String.mk schemeCs, some (String.mk h), some n,
                String.mk pathCs⟩
            | none => none
        | _ => none

/-- OAuth client state (src/basic_oauth.rs, `OAuthCbClient`).  The
BasicClient of the oauth2 crate is modelled by the credential strings and
the parsed redirect url it stores; tokens are modelled by their secret
strings and the scope HashSet by a finite set of strings. -/
structure OAuthCbClient where
  client_id : String
  client_secret : String
  redirect_url : Url
  access_token : Option String
  refresh_token : Option String
  scopes : Finset String
deriving DecidableEq

/-- Constructor OAuthCbClient::new (src/basic_oauth.rs lines 78-96).
RedirectUrl::new validates the redirect url with Url::parse, and the source
unwraps the result with expect, which panics on a malformed url.  On
success the client is built with no access token, no refresh token and an
empty scope set; no network activity is involved. -/
def OAuthCbClient.new (client_id client_secret redirect_url : String) :
    PanicOr OAuthCbClient :=
  match parseUrl redirect_url with
  | none => PanicOr.panicked "Invalid redirect_url"
  | some u => PanicOr.value ⟨client_id, client_secret, u, none, none, ∅⟩

/-- Builder add_scope (src/basic_oauth.rs lines 110-117).  The source
asserts membership of the scope in VALID_SCOPES, panicking otherwise, and
then inserts the scope into the HashSet; in the reference design this
assertion panic is the InvalidScopeError failure of the contract. -/
def OAuthCbClient.add_scope (self : OAuthCbClient)
    (scope_description : String) : PanicOr OAuthCbClient :=
  if scope_description ∈ VALID_SCOPES then
    PanicOr.value { self with scopes := insert scope_description self.scopes }
  else
    PanicOr.panicked
      "assertion failed: VALID_SCOPES.contains(scope_description)"

/-- AccessTokenProvider::access_token for OAuthCbClient (src/basic_oauth.rs
lines 39-43): clones the stored access token option and unwraps it, which
panics when no token has been stored. -/
def OAuthCbClient.access_token_provider (self : OAuthCbClient) :
    PanicOr String :=
  match self.access_token with
  | none => PanicOr.panicked "called Option::unwrap on a None value"
  | some t => PanicOr.value t

/-- Head of authorize_once (src/basic_oauth.rs lines 133-139): reads the
redirect url of the client and unwraps its host and port to form the
listener address, panicking when either is absent. -/
def authorize_once_listener_address (self : OAuthCbClient) :
    PanicOr (String × Nat) :=
  match self.redirect_url.host with
  | none => PanicOr.panicked "called Option::unwrap on a None value"
  | some h =>
    match self.redirect_url.port with
    | none => PanicOr.panicked "called Option::unwrap on a None value"
    | some p => PanicOr.value (h, p)

/-- Token endpoint response (oauth2 crate), restricted to the fields the
client reads. -/
structure TokenResponse where
  access_token : String
  refresh_token : Option String
deriving DecidableEq, Repr

/-- Result of a client-mutating code fragment that may panic: `panicked`
carries the client state at the panic point, which the fragment has not
mutated. -/
inductive StepResult where
  | panicked (self : OAuthCbClient)
  | done (self : OAuthCbClient)
deriving DecidableEq

/-- Tail of authorize_once after the callback request has been parsed and
answered (src/basic_oauth.rs lines 196-211): assert that the state query
parameter equals the generated csrf token, then exchange the code for
tokens and store them (the refresh token only when one is returned).  The
external token-exchange HTTP call is modelled by the `exchange` argument;
the Boolean component of the result records whether that call was issued.
A failed exchange panics through unwrap. -/
def authorize_once_exchange (self : OAuthCbClient) (state csrf_state : String)
    (code : String) (exchange : String → Except String TokenResponse) :
    StepResult × Bool :=
  if state = csrf_state then
    match exchange code with
    | Except.error _ => (StepResult.panicked self, true)
    | Except.ok token_response =>
      let self1 :=
        match token_response.refresh_token with
        | some tok => { self with refresh_token := some tok }
        | none => self
      (StepResult.done { self1 with
          access_token := some token_response.access_token }, true)
  else (StepResult.panicked self, false)

/-- Claim C6: whenever the state parameter extracted from the callback
differs from the csrf token generated for this attempt, authorize_once
aborts before the token exchange: the exchange oracle is never called (flag
`false`) and the client state carried out of the aborting assertion is the
unchanged input, so access_token and refresh_token keep their pre-call
values. -/
theorem authorize_once_csrf_mismatch (self : OAuthCbClient)
    (state csrf_state code : String)
    (exchange : String → Except String TokenResponse)
    (h : state ≠ csrf_state) :
    authorize_once_exchange self state csrf_state code exchange
      = (StepResult.panicked self, false) ∧
    (∀ c, authorize_once_exchange self state csrf_state code exchange
        = (StepResult.panicked c, false) →
      c.access_token = self.access_token ∧
      c.refresh_token = self.refresh_token) := by
  refine ⟨by simp [authorize_once_exchange, h], ?_⟩
  intro c hc
  simp [authorize_once_exchange, h] at hc
  simp [hc]

/-- Concrete client used by witnesses: redirect url http://localhost:3001,
no tokens stored, no scopes. -/
def demoClient : OAuthCbClient :=
  ⟨"demo_id", "demo_secret", ⟨"http", some "localhost", some 3001, ""⟩,
    none, none, ∅⟩

/-- Exchange oracle used by witnesses; any call to it would succeed, which
makes the unused-call check meaningful. -/
def demoExchange : String → Except String TokenResponse :=
  fun _ => Except.ok ⟨"access-secret", some "refresh-secret"⟩

/-- Witness for C6: a callback state "evil" against the generated token
"good" aborts with the client unchanged and without calling the exchange
oracle. -/
theorem authorize_once_csrf_mismatch_witness :
    ("evil" ≠ "good") ∧
    authorize_once_exchange demoClient "evil" "good" "authcode" demoExchange
      = (StepResult.panicked demoClient, false) :=
  ⟨by decide,
    (authorize_once_csrf_mismatch demoClient "evil" "good" "authcode"
      demoExchange (by decide)).1⟩

/-- Claim C7: add_scope rejects (by the assertion panic that realizes the
InvalidScopeError of the contract) exactly the scope strings outside the
25-element whitelist; a whitelisted scope is inserted into the scope set of
the returned builder; inserting the same scope twice collapses, and two
chained insertions commute, so insertion order is irrelevant. -/
theorem add_scope_spec (c : OAuthCbClient) (s s1 s2 : String) :
    VALID_SCOPES.length = 25 ∧
    (s ∉ VALID_SCOPES → c.add_scope s
      = PanicOr.panicked
          "assertion failed: VALID_SCOPES.contains(scope_description)") ∧
    (s ∈ VALID_SCOPES → c.add_scope s
      = PanicOr.value { c with scopes := insert s c.scopes }) ∧
    (∀ c2, c.add_scope s = PanicOr.value c2 →
      c2.add_scope s = PanicOr.value c2) ∧
    ((match c.add_scope s1 with
      | PanicOr.value d => d.add_scope s2
      | PanicOr.panicked m => PanicOr.panicked m)
     = (match c.add_scope s2 with
        | PanicOr.value d => d.add_scope s1
        | PanicOr.panicked m => PanicOr.panicked m)) := by
  refine ⟨by decide, ?_, ?_, ?_, ?_⟩
  · intro hs
    simp [OAuthCbClient.add_scope, hs]
  · intro hs
    simp [OAuthCbClient.add_scope, hs]
  · intro c2 hc2
    by_cases hs : s ∈ VALID_SCOPES
    · simp [OAuthCbClient.add_scope, hs] at hc2 ⊢
      rw [← hc2]
      simp [Finset.insert_idem]
    · simp [OAuthCbClient.add_scope, hs] at hc2
  · by_cases h1 : s1 ∈ VALID_SCOPES <;> by_cases h2 : s2 ∈ VALID_SCOPES <;>
      simp [OAuthCbClient.add_scope, h1, h2, Finset.Insert.comm]

/-- Witness for C7: the misspelled scope "wallet:acounts:read" is rejected,
the valid scope "wallet:accounts:read" is inserted, and inserting it twice
gives the same client as inserting it once. -/
theorem add_scope_spec_witness :
    ("wallet:acounts:read" ∉ VALID_SCOPES) ∧
    demoClient.add_scope "wallet:acounts:read"
      = PanicOr.panicked
          "assertion failed: VALID_SCOPES.contains(scope_description)" ∧
    ("wallet:accounts:read" ∈ VALID_SCOPES) ∧
    demoClient.add_scope "wallet:accounts:read"
      = PanicOr.value
          { demoClient with scopes := insert "wallet:accounts:read" ∅ } ∧
    ({ demoClient with
        scopes := insert "wallet:accounts:read" ∅ } : OAuthCbClient).add_scope
        "wallet:accounts:read"
      = PanicOr.value { demoClient with scopes := insert "wallet:accounts:read" ∅ } :=
  ⟨by decide,
    (add_scope_spec demoClient "wallet:acounts:read" "" "").2.1 (by decide),
    by decide,
    (add_scope_spec demoClient "wallet:accounts:read" "" "").2.2.1 (by decide),
    (add_scope_spec demoClient "wallet:accounts:read" "" "").2.2.2.1
      { demoClient with scopes := insert "wallet:accounts:read" ∅ }
      ((add_scope_spec demoClient "wallet:accounts:read" "" "").2.2.1 (by decide))⟩

/-- Claim C8 counterexample: the redirect uri "http://localhost" is a
well-formed url without a port, yet OAuthCbClient::new accepts it instead
of failing: construction does not validate the presence of a port (nor of a
host beyond url syntax), contradicting the claim that every redirect URI
without host and port is rejected at construction time. -/
theorem new_accepts_portless_redirect :
    parseUrl "http://localhost" = some ⟨"http", some "localhost", none, ""⟩ ∧
    OAuthCbClient.new "demo_id" "demo_secret" "http://localhost"
      = PanicOr.value
          ⟨"demo_id", "demo_secret", ⟨"http", some "localhost", none, ""⟩,
            none, none, ∅⟩ := by
  exact ⟨by decide, by decide⟩

/-- Claim C8 amended: OAuthCbClient::new validates only that the redirect
URI parses as a well-formed url, panicking otherwise; for every parsable
input it is pure construction that stores the parsed url and leaves
access_token and refresh_token unset.  The presence of a host and a port is
checked only later, at the start of authorize_once, which panics when
either is absent. -/
theorem new_spec (cid cs r : String) :
    (parseUrl r = none →
      OAuthCbClient.new cid cs r = PanicOr.panicked "Invalid redirect_url") ∧
    (∀ u, parseUrl r = some u →
      OAuthCbClient.new cid cs r
        = PanicOr.value ⟨cid, cs, u, none, none, ∅⟩) ∧
    (∀ c, OAuthCbClient.new cid cs r = PanicOr.value c →
      c.access_token = none ∧ c.refresh_token = none ∧
      ((c.redirect_url.host = none ∨ c.redirect_url.port = none) →
        authorize_once_listener_address c
          = PanicOr.panicked "called Option::unwrap on a None value")) := by
  refine ⟨?_, ?_, ?_⟩
  · intro h
    simp [OAuthCbClient.new, h]
  · intro u h
    simp [OAuthCbClient.new, h]
  · intro c hc
    cases hu : parseUrl r with
    | none => simp [OAuthCbClient.new, hu] at hc
    | some u =>
      simp [OAuthCbClient.new, hu] at hc
      subst hc
      refine ⟨rfl, rfl, ?_⟩
      intro hmiss
      simp only [] at hmiss
      rcases hmiss with hh | hp
      · simp [authorize_once_listener_address, hh]
      · cases hh : u.host with
        | none => simp [authorize_once_listener_address, hh]
        | some hst => simp [authorize_once_listener_address, hh, hp]

/-- Witness for C8 (amended): the portless url "http://localhost" is
constructed successfully with no tokens stored, and the start of
authorize_once then panics on the missing port; the unparsable input
"not a url" is rejected at construction. -/
theorem new_spec_witness :
    parseUrl "not a url" = none ∧
    OAuthCbClient.new "demo_id" "demo_secret" "not a url"
      = PanicOr.panicked "Invalid redirect_url" ∧
    parseUrl "http://localhost" = some ⟨"http", some "localhost", none, ""⟩ ∧
    OAuthCbClient.new "demo_id" "demo_secret" "http://localhost"
      = PanicOr.value
          ⟨"demo_id", "demo_secret", ⟨"http", some "localhost", none, ""⟩,
            none, none, ∅⟩ ∧
    authorize_once_listener_address
        ⟨"demo_id", "demo_secret", ⟨"http", some "localhost", none, ""⟩,
          none, none, ∅⟩
      = PanicOr.panicked "called Option::unwrap on a None value" :=
  ⟨by decide,
    (new_spec "demo_id" "demo_secret" "not a url").1 (by decide),
    by decide,
    (new_spec "demo_id" "demo_secret" "http://localhost").2.1
      ⟨"http", some "localhost", none, ""⟩ (by decide),
    ((new_spec "demo_id" "demo_secret" "http://localhost").2.2
      ⟨"demo_id", "demo_secret", ⟨"http", some "localhost", none, ""⟩,
        none, none, ∅⟩
      ((new_spec "demo_id" "demo_secret" "http://localhost").2.1
        ⟨"http", some "localhost", none, ""⟩ (by decide))).2.2 (Or.inr rfl)⟩

/-- Claim C9: for every client whose access_token field is None, the public
accessor access_token() panics by unwrapping None, rather than returning an
error value or an empty token; it returns a token exactly when one has been
stored. -/
theorem access_token_provider_spec (c : OAuthCbClient) :
    (c.access_token = none →
      c.access_token_provider
        = PanicOr.panicked "called Option::unwrap on a None value") ∧
    (∀ t, c.access_token = some t →
      c.access_token_provider = PanicOr.value t) := by
  constructor
  · intro h
    simp [OAuthCbClient.access_token_provider, h]
  · intro t h
    simp [OAuthCbClient.access_token_provider, h]

/-- Witness for C9: the freshly built demo client panics on access_token();
the same client with a stored token returns it. -/
theorem access_token_provider_spec_witness :
    demoClient.access_token = none ∧
    demoClient.access_token_provider
      = PanicOr.panicked "called Option::unwrap on a None value" ∧
    ({ demoClient with access_token := some "tok" } : OAuthCbClient).access_token
      = some "tok" ∧
    ({ demoClient with
        access_token := some "tok" } : OAuthCbClient).access_token_provider
      = PanicOr.value "tok" :=
  ⟨rfl,
    (access_token_provider_spec demoClient).1 rfl,
    rfl,
    (access_token_provider_spec { demoClient with access_token := some "tok" }).2
      "tok" rfl⟩

/-- Base URL of the Coinbase v3 API (src/lib.rs, `MAIN_URL`). -/
def MAIN_URL : String := "https://api.coinbase.com/api/v3"

/-- Model of chrono DateTime of Utc (external crate): the rfc3339 rendering
with seconds precision and Z suffix used by the query builder is carried as
a field, the numeric timestamp as another. -/
structure DateTime where
  timestamp : Int
  rfc3339_secs_z : String
deriving DecidableEq, Repr

/-- Order status (src/orders.rs, `Status`), rendered as its serialized
SCREAMING_SNAKE_CASE name by the derived Display implementation. -/
inductive Status where
  | statusOpen | filled | cancelled | expired | failed | unknownOrderStatus
deriving DecidableEq, Repr

def Status.toStr : Status → String
  | .statusOpen => "OPEN"
  | .filled => "FILLED"
  | .cancelled => "CANCELLED"
  | .expired => "EXPIRED"
  | .failed => "FAILED"
  | .unknownOrderStatus => "UNKNOWN_ORDER_STATUS"

/-- Order type (src/orders.rs, `OrderType`); the stop-limit variant is
renamed to STOP_LIMIT by a serde attribute. -/
inductive OrderType where
  | unknownOrderType | market | limit | stop | stopLimitOrderType
deriving DecidableEq, Repr

def OrderType.toStr : OrderType → String
  | .unknownOrderType => "UNKNOWN_ORDER_TYPE"
  | .market => "MARKET"
  | .limit => "LIMIT"
  | .stop => "STOP"
  | .stopLimitOrderType => "STOP_LIMIT"

/-- Order placement source (src/orders.rs, `OrderPlacementSource`). -/
inductive OrderPlacementSource where
  | retailSimple | retailAdvanced
deriving DecidableEq, Repr

def OrderPlacementSource.toStr : OrderPlacementSource → String
  | .retailSimple => "RETAIL_SIMPLE"
  | .retailAdvanced => "RETAIL_ADVANCED"

/-- Order side (src/products.rs, `Side`). -/
inductive Side where
  | unknownOrderSide | buy | sell
deriving DecidableEq, Repr

def Side.toStr : Side → String
  | .unknownOrderSide => "UNKNOWN_ORDER_SIDE"
  | .buy => "BUY"
  | .sell => "SELL"

/-- Product type (src/products.rs, `ProductType`). -/
inductive ProductType where
  | spot | future
deriving DecidableEq, Repr

def ProductType.toStr : ProductType → String
  | .spot => "SPOT"
  | .future => "FUTURE"

/-- Contract expiry type (src/products.rs, `ContractExpiryType`). -/
inductive ContractExpiryType where
  | unknownRiskManagementType | expiring
deriving DecidableEq, Repr

def ContractExpiryType.toStr : ContractExpiryType → String
  | .unknownRiskManagementType => "UNKNOWN_RISK_MANAGEMENT_TYPE"
  | .expiring => "EXPIRING"

/-- Query argument store passed to the uri template builder (src/client.rs,
`QueryArgs`): an ordered list of key-value pairs. -/
structure QueryArgs where
  data : List (String × String)
deriving DecidableEq, Repr

/-- QueryArgs::new (src/client.rs lines 464-468). -/
def QueryArgs.new : QueryArgs := ⟨[]⟩

/-- QueryArgs::get (src/client.rs lines 470-472). -/
def QueryArgs.get (self : QueryArgs) : List (String × String) := self.data

/-- QueryArgs::add_mandatory_arg (src/client.rs lines 474-477); the
ToString bound of the source is modelled by the explicit rendering
function ts. -/
def QueryArgs.add_mandatory_arg {T : Type} (self : QueryArgs) (key : String)
    (ts : T → String) (value : T) : QueryArgs :=
  ⟨self.data ++ [(key, ts value)]⟩

/-- QueryArgs::add_optional_scalar_arg (src/client.rs lines 479-484): push
the rendered pair when the value is present, otherwise leave the store
unchanged. -/
def QueryArgs.add_optional_scalar_arg {T : Type} (self : QueryArgs)
    (key : String) (ts : T → String) (value : Option T) : QueryArgs :=
  match value with
  | some x => ⟨self.data ++ [(key, ts x)]⟩
  | none => self

/-- QueryArgs::add_optional_datetime_arg (src/client.rs lines 486-494):
renders the datetime with to_rfc3339_opts seconds precision and Z suffix. -/
def QueryArgs.add_optional_datetime_arg (self : QueryArgs) (key : String)
    (value : Option DateTime) : QueryArgs :=
  match value with
  | some x => ⟨self.data ++ [(key, x.rfc3339_secs_z)]⟩
  | none => self

/-- QueryArgs::add_optional_vec_args (src/client.rs lines 496-506): append
one pair per element under the same key. -/
def QueryArgs.add_optional_vec_args {T : Type} (self : QueryArgs)
    (key : String) (ts : T → String) (values : Option (List T)) : QueryArgs :=
  match values with
  | some xs => ⟨self.data ++ xs.map (fun x => (key, ts x))⟩
  | none => self

/-- Form-style query expansion applied by the uritemplate crate to the
query argument list: empty list expands to nothing, otherwise a question
mark followed by ampersand-separated key=value pairs.  The keys and values
this client produces contain no characters that require percent escaping. -/
def expand_query : List (String × String) → String
  | [] => ""
  | p :: ps =>
    "?" ++ String.intercalate "&" ((p :: ps).map (fun q => q.1 ++ "=" ++ q.2))

/-- Query arguments assembled by get_list_orders_uri (src/client.rs lines
320-335).  The key of the contract expiry filter is misspelled
contract_expirty_type in the source and is transcribed verbatim. -/
def get_list_orders_query (product_id : Option String)
    (order_status : Option (List Status)) (limit : Option Int)
    (start_date end_date : Option DateTime)
    (deprecated_user_native_currency : Option String)
    (order_type : Option OrderType) (order_side : Option Side)
    (cursor : Option String) (product_type : Option ProductType)
    (order_placement_source : Option OrderPlacementSource)
    (contract_expiry_type : Option ContractExpiryType) : QueryArgs :=
  ((((((((((((QueryArgs.new.add_optional_scalar_arg
    "product_id" id product_id).add_optional_vec_args
    "order_status" Status.toStr order_status).add_optional_scalar_arg
    "limit" toString limit).add_optional_datetime_arg
    "start_date" start_date).add_optional_datetime_arg
    "end_date" end_date).add_optional_scalar_arg
    "deprecated_user_native_currency" id
      deprecated_user_native_currency).add_optional_scalar_arg
    "order_type" OrderType.toStr order_type).add_optional_scalar_arg
    "order_side" Side.toStr order_side).add_optional_scalar_arg
    "cursor" id cursor).add_optional_scalar_arg
    "product_type" ProductType.toStr product_type).add_optional_scalar_arg
    "order_placement_source" OrderPlacementSource.toStr
      order_placement_source).add_optional_scalar_arg
    "contract_expirty_type" ContractExpiryType.toStr contract_expiry_type)

/-- get_list_orders_uri (src/client.rs lines 306-342): the batch orders
path of the base url with the expanded query arguments. -/
def get_list_orders_uri (product_id : Option String)
    (order_status : Option (List Status)) (limit : Option Int)
    (start_date end_date : Option DateTime)
    (deprecated_user_native_currency : Option String)
    (order_type : Option OrderType) (order_side : Option Side)
    (cursor : Option String) (product_type : Option ProductType)
    (order_placement_source : Option OrderPlacementSource)
    (contract_expiry_type : Option ContractExpiryType) : String :=
  MAIN_URL ++ "/brokerage/orders/historical/batch"
    ++ expand_query (get_list_orders_query product_id order_status limit
        start_date end_date deprecated_user_native_currency order_type
        order_side cursor product_type order_placement_source
        contract_expiry_type).get

theorem add_optional_scalar_arg_data {T : Type} (q : QueryArgs) (key : String)
    (ts : T → String) (v : Option T) :
    (q.add_optional_scalar_arg key ts v).data
      = q.data ++ v.elim [] (fun x => [(key, ts x)]) := by
  cases v <;> simp [QueryArgs.add_optional_scalar_arg]

theorem add_optional_datetime_arg_data (q : QueryArgs) (key : String)
    (v : Option DateTime) :
    (q.add_optional_datetime_arg key v).data
      = q.data ++ v.elim [] (fun x => [(key, x.rfc3339_secs_z)]) := by
  cases v <;> simp [QueryArgs.add_optional_datetime_arg]

theorem add_optional_vec_args_data {T : Type} (q : QueryArgs) (key : String)
    (ts : T → String) (vs : Option (List T)) :
    (q.add_optional_vec_args key ts vs).data
      = q.data ++ vs.elim [] (fun xs => xs.map (fun x => (key, ts x))) := by
  cases vs <;> simp [QueryArgs.add_optional_vec_args]

theorem mem_elim_scalar {T : Type} (k s key : String) (ts : T → String)
    (o : Option T) :
    ((k, s) ∈ o.elim ([] : List (String × String)) (fun x => [(key, ts x)]))
      ↔ ∃ x, o = some x ∧ k = key ∧ s = ts x := by
  cases o <;> simp

theorem mem_elim_vec {T : Type} (k s key : String) (ts : T → String)
    (o : Option (List T)) :
    ((k, s) ∈ o.elim ([] : List (String × String))
        (fun xs => xs.map (fun x => (key, ts x))))
      ↔ ∃ xs x, o = some xs ∧ x ∈ xs ∧ k = key ∧ s = ts x := by
  cases o <;> simp [eq_comm]

theorem get_list_orders_query_get (product_id : Option String)
    (order_status : Option (List Status)) (limit : Option Int)
    (start_date end_date : Option DateTime)
    (deprecated_user_native_currency : Option String)
    (order_type : Option OrderType) (order_side : Option Side)
    (cursor : Option String) (product_type : Option ProductType)
    (order_placement_source : Option OrderPlacementSource)
    (contract_expiry_type : Option ContractExpiryType) :
    (get_list_orders_query product_id order_status limit start_date end_date
        deprecated_user_native_currency order_type order_side cursor
        product_type order_placement_source contract_expiry_type).get
      = product_id.elim [] (fun x => [("product_id", x)])
        ++ order_status.elim []
            (fun xs => xs.map (fun x => ("order_status", Status.toStr x)))
        ++ limit.elim [] (fun x => [("limit", toString x)])
        ++ start_date.elim [] (fun x => [("start_date", x.rfc3339_secs_z)])
        ++ end_date.elim [] (fun x => [("end_date", x.rfc3339_secs_z)])
        ++ deprecated_user_native_currency.elim []
            (fun x => [("deprecated_user_native_currency", x)])
        ++ order_type.elim [] (fun x => [("order_type", OrderType.toStr x)])
        ++ order_side.elim [] (fun x => [("order_side", Side.toStr x)])
        ++ cursor.elim [] (fun x => [("cursor", x)])
        ++ product_type.elim []
            (fun x => [("product_type", ProductType.toStr x)])
        ++ order_placement_source.elim []
            (fun x => [("order_placement_source",
              OrderPlacementSource.toStr x)])
        ++ contract_expiry_type.elim []
            (fun x => [("contract_expirty_type",
              ContractExpiryType.toStr x)]) := by
  simp [get_list_orders_query, QueryArgs.get, QueryArgs.new,
    add_optional_scalar_arg_data, add_optional_datetime_arg_data,
    add_optional_vec_args_data, List.append_assoc]

/-- Claim C10: in the request URL generated by get_list_orders_uri, a
provided contract expiry filter is encoded under the misspelled query key
contract_expirty_type and never under the correctly spelled
contract_expiry_type, while the key-value characterization shows that
every other provided optional parameter is encoded under its correctly
spelled key and that every None parameter contributes no pair at all; the
URL is the batch orders path with exactly these query arguments expanded. -/
theorem get_list_orders_uri_contract_expirty_key (product_id : Option String)
    (order_status : Option (List Status)) (limit : Option Int)
    (start_date end_date : Option DateTime)
    (deprecated_user_native_currency : Option String)
    (order_type : Option OrderType) (order_side : Option Side)
    (cursor : Option String) (product_type : Option ProductType)
    (order_placement_source : Option OrderPlacementSource)
    (v : ContractExpiryType) (contract_expiry_type : Option ContractExpiryType)
    (hce : contract_expiry_type = some v) :
    (∀ k s, ((k, s) ∈ (get_list_orders_query product_id order_status limit
        start_date end_date deprecated_user_native_currency order_type
        order_side cursor product_type order_placement_source
        contract_expiry_type).get) ↔
      ((∃ x, product_id = some x ∧ k = "product_id" ∧ s = x) ∨
       (∃ xs x, order_status = some xs ∧ x ∈ xs ∧ k = "order_status"
          ∧ s = Status.toStr x) ∨
       (∃ x, limit = some x ∧ k = "limit" ∧ s = toString x) ∨
       (∃ x, start_date = some x ∧ k = "start_date"
          ∧ s = x.rfc3339_secs_z) ∨
       (∃ x, end_date = some x ∧ k = "end_date" ∧ s = x.rfc3339_secs_z) ∨
       (∃ x, deprecated_user_native_currency = some x
          ∧ k = "deprecated_user_native_currency" ∧ s = x) ∨
       (∃ x, order_type = some x ∧ k = "order_type"
          ∧ s = OrderType.toStr x) ∨
       (∃ x, order_side = some x ∧ k = "order_side" ∧ s = Side.toStr x) ∨
       (∃ x, cursor = some x ∧ k = "cursor" ∧ s = x) ∨
       (∃ x, product_type = some x ∧ k = "product_type"
          ∧ s = ProductType.toStr x) ∨
       (∃ x, order_placement_source = some x ∧ k = "order_placement_source"
          ∧ s = OrderPlacementSource.toStr x) ∨
       (∃ x, contract_expiry_type = some x ∧ k = "contract_expirty_type"
          ∧ s = ContractExpiryType.toStr x))) ∧
    (("contract_expirty_type", ContractExpiryType.toStr v)
      ∈ (get_list_orders_query product_id order_status limit start_date
          end_date deprecated_user_native_currency order_type order_side
          cursor product_type order_placement_source
          contract_expiry_type).get) ∧
    (∀ s, ("contract_expiry_type", s)
      ∉ (get_list_orders_query product_id order_status limit start_date
          end_date deprecated_user_native_currency order_type order_side
          cursor product_type order_placement_source
          contract_expiry_type).get) ∧
    get_list_orders_uri product_id order_status limit start_date end_date
        deprecated_user_native_currency order_type order_side cursor
        product_type order_placement_source contract_expiry_type
      = MAIN_URL ++ "/brokerage/orders/historical/batch"
        ++ expand_query (get_list_orders_query product_id order_status limit
            start_date end_date deprecated_user_native_currency order_type
            order_side cursor product_type order_placement_source
            contract_expiry_type).get := by
  have hget := get_list_orders_query_get product_id order_status limit
    start_date end_date deprecated_user_native_currency order_type
    order_side cursor product_type order_placement_source
    contract_expiry_type
  refine ⟨?_, ?_, ?_, rfl⟩
  · intro k s
    rw [hget]
    simp only [List.mem_append, mem_elim_scalar, mem_elim_vec, or_assoc]
  · rw [hget]
    subst hce
    simp
  · intro s
    rw [hget]
    simp [mem_elim_scalar, mem_elim_vec]

/-- Witness for C10: with the filter set to EXPIRING, product "BTC-USD",
status OPEN, a limit, a cursor, and all other parameters absent, the
misspelled key appears with value EXPIRING and the correctly spelled key
never appears. -/
theorem get_list_orders_uri_contract_expirty_key_witness :
    (some ContractExpiryType.expiring = some ContractExpiryType.expiring) ∧
    ("contract_expirty_type", "EXPIRING")
      ∈ (get_list_orders_query (some "BTC-USD") (some [Status.statusOpen])
          (some 5) none none none none none (some "cur123") none none
          (some ContractExpiryType.expiring)).get ∧
    (∀ s, ("contract_expiry_type", s)
      ∉ (get_list_orders_query (some "BTC-USD") (some [Status.statusOpen])
          (some 5) none none none none none (some "cur123") none none
          (some ContractExpiryType.expiring)).get) :=
  ⟨rfl,
    (get_list_orders_uri_contract_expirty_key (some "BTC-USD")
      (some [Status.statusOpen]) (some 5) none none none none none
      (some "cur123") none none ContractExpiryType.expiring
      (some ContractExpiryType.expiring) rfl).2.1,
    (get_list_orders_uri_contract_expirty_key (some "BTC-USD")
      (some [Status.statusOpen]) (some 5) none none none none none
      (some "cur123") none none ContractExpiryType.expiring
      (some ContractExpiryType.expiring) rfl).2.2.1⟩

end Coinbase
